import Mathlib

/-!
Verification of the oya-commitments agent repository.

Each namespace below is a shallow embedding of one source module:

* `DcaAgent`   — agent-library/agents/dca-agent/agent.js (per-deployment
  policy state: step flags, pending-proposal indicator, reconciliation).
* `ClobLib`    — the trading-venue (Polymarket CLOB) request helper.
* `AgentMain`  — the main agent module: postBondAndPropose (bond preflight
  and the V2/V1 interface fallback), pollCommitmentChanges (signal
  detection with block cursor), executeToolCalls and buildOgTransactions.
* `TxLib`      — the extended intent compiler of src/lib/tx.js.
* `Timelock`   — the timelock-rule extractor (absolute and relative
  triggers parsed from plain-language rules text).

Machine integers are modelled as `Nat`/`Int` (JS BigInt and Number carry
the exact values used here), fallible calls as `Except`, and the
surrounding I/O as explicit environments recording outcomes of each
external read or write.
-/

namespace DcaAgent

/-- State of the per-deployment `dcaState` record of the DCA agent:
boolean step flags, the cycle counter, and the outstanding proposal
submission handle (transaction hash and wall-clock submit time). -/
structure DcaState where
  depositConfirmed : Bool
  proposalBuilt : Bool
  proposalPosted : Bool
  cyclesCompleted : Nat
  proposalSubmitHash : Option String
  proposalSubmitMs : Option Nat
deriving Repr, DecidableEq

/-- The initial `dcaState` value of the module. -/
def initialDcaState : DcaState :=
  { depositConfirmed := false
    proposalBuilt := false
    proposalPosted := false
    cyclesCompleted := 0
    proposalSubmitHash := none
    proposalSubmitMs := none }

/-- DCA_POLICY.maxCycles. -/
def maxCycles : Nat := 2

/-- DCA_POLICY.proposalConfirmTimeoutMs. -/
def proposalConfirmTimeoutMs : Nat := 60000

/-- The parsed tool output consumed by `onToolOutput`: its status string
and, for proposal submissions, the proposal transaction hash. -/
structure ToolOutputView where
  status : String
  proposalHash : Option String
deriving Repr, DecidableEq

/-- Embedding of `onToolOutput({name, parsedOutput})`: updates the step
flags from a tool execution outcome.  `nowMs` stands for `Date.now()`. -/
def onToolOutput (s : DcaState) (name : Option String)
    (parsedOutput : Option ToolOutputView) (nowMs : Nat) : DcaState :=
  match name, parsedOutput with
  | none, _ => s
  | _, none => s
  | some n, some p =>
    if p.status = "error" then s
    else if n = "make_deposit" ∧ p.status = "confirmed" then
      { s with depositConfirmed := true, proposalBuilt := false, proposalPosted := false }
    else if n = "build_og_transactions" ∧ p.status = "ok" then
      { s with proposalBuilt := true }
    else if n = "post_bond_and_propose" ∧ p.status = "submitted" then
      { s with proposalPosted := true
               depositConfirmed := false
               proposalBuilt := false
               proposalSubmitHash := p.proposalHash
               proposalSubmitMs := some nowMs }
    else s

/-- Embedding of `onProposalEvents({executedProposalCount, deletedProposalCount})`:
clears the submission state when proposals were executed or deleted
on-chain, counting completed cycles up to `maxCycles`. -/
def onProposalEvents (s : DcaState) (executedProposalCount deletedProposalCount : Nat) :
    DcaState :=
  let s1 :=
    if executedProposalCount > 0 then
      { s with proposalPosted := false
               proposalBuilt := false
               depositConfirmed := false
               proposalSubmitHash := none
               proposalSubmitMs := none
               cyclesCompleted := min maxCycles (s.cyclesCompleted + executedProposalCount) }
    else s
  if deletedProposalCount > 0 then
    { s1 with proposalPosted := false
              proposalBuilt := false
              depositConfirmed := false
              proposalSubmitHash := none
              proposalSubmitMs := none }
  else s1

/-- Outcome of the `getTransactionReceipt` lookup inside
`reconcileProposalSubmission`: either a receipt (with its reverted
status) or a thrown lookup error. -/
inductive ReceiptOutcome where
  | receipt (reverted : Bool)
  | threw
deriving Repr, DecidableEq

/-- Embedding of `reconcileProposalSubmission`: while a submission is
recorded, a reverted receipt, or a lookup failure past the confirmation
timeout, clears the posted/built flags and the submission handle.  Note
the source resets `proposalPosted` and `proposalBuilt` here but does not
touch `depositConfirmed`. -/
def reconcileProposalSubmission (s : DcaState) (outcome : ReceiptOutcome)
    (nowMs : Nat) : DcaState :=
  if s.proposalPosted = false ∨ s.proposalSubmitHash = none ∨ s.proposalSubmitMs = none then
    s
  else
    match outcome, s.proposalSubmitMs with
    | ReceiptOutcome.receipt reverted, _ =>
      if reverted then
        { s with proposalPosted := false
                 proposalBuilt := false
                 proposalSubmitHash := none
                 proposalSubmitMs := none }
      else s
    | ReceiptOutcome.threw, some ms =>
      if nowMs - ms > proposalConfirmTimeoutMs then
        { s with proposalPosted := false
                 proposalBuilt := false
                 proposalSubmitHash := none
                 proposalSubmitMs := none }
      else s
    | ReceiptOutcome.threw, none => s

/-- Embedding of `getPendingProposal(onchainPending)`: true when a
proposal is pending on-chain or the local state has one posted. -/
def getPendingProposal (onchainPending : Bool) (s : DcaState) : Bool :=
  onchainPending || s.proposalPosted

/-- One externally triggered mutation of the DCA agent state. -/
inductive AgentEvent where
  | toolOutput (name : Option String) (parsedOutput : Option ToolOutputView) (nowMs : Nat)
  | proposalEvents (executedProposalCount deletedProposalCount : Nat)
  | reconcile (outcome : ReceiptOutcome) (nowMs : Nat)
deriving Repr

/-- Step function combining the three state-mutating entry points of the
DCA agent module. -/
def stepDca (s : DcaState) : AgentEvent → DcaState
  | AgentEvent.toolOutput name parsed nowMs => onToolOutput s name parsed nowMs
  | AgentEvent.proposalEvents ex de => onProposalEvents s ex de
  | AgentEvent.reconcile outcome nowMs => reconcileProposalSubmission s outcome nowMs

/-- States reachable from the initial `dcaState` through the module
entry points. -/
inductive ReachableDca : DcaState → Prop where
  | init : ReachableDca initialDcaState
  | step {s : DcaState} (e : AgentEvent) : ReachableDca s → ReachableDca (stepDca s e)

/-- Whether an event is a clearing operation that fires on state `s`:
a proposal execution or deletion event, or a failure or expiry outcome
of `reconcileProposalSubmission` on a recorded submission. -/
def clearingEvent (s : DcaState) : AgentEvent → Bool
  | AgentEvent.toolOutput _ _ _ => false
  | AgentEvent.proposalEvents ex de => ex > 0 || de > 0
  | AgentEvent.reconcile outcome nowMs =>
    s.proposalPosted && s.proposalSubmitHash.isSome && s.proposalSubmitMs.isSome &&
      (match outcome, s.proposalSubmitMs with
       | ReceiptOutcome.receipt reverted, _ => reverted
       | ReceiptOutcome.threw, some ms => decide (nowMs - ms > proposalConfirmTimeoutMs)
       | ReceiptOutcome.threw, none => false)

/-- Result of the policy gate for a single tool call. -/
inductive ValidationResult where
  | accept
  | reject (reason : String)
deriving Repr, DecidableEq

/-- Modelled from the spec: the agent runner performing `validate` is not
part of the captured sources (only the dca agent module it consults is).
Per the spec, a proposal-type tool call is rejected while the
pending-proposal indicator is true. -/
def validateToolCall (pendingProposal : Bool) (toolName : String) : ValidationResult :=
  if toolName = "post_bond_and_propose" ∧ pendingProposal = true then
    ValidationResult.reject ("pending proposal outstanding")
  else ValidationResult.accept

/-- Invariant: in every reachable state a posted proposal excludes a
confirmed deposit and the flags form the forward ladder the code
maintains. -/
theorem posted_excludes_deposit {s : DcaState} (h : ReachableDca s) :
    s.proposalPosted = true → s.depositConfirmed = false := by
  induction h with
  | init => intro hx; simp [initialDcaState] at hx
  | step e hs ih =>
    rename_i s'
    cases e with
    | toolOutput name parsed nowMs =>
      cases name with
      | none => simpa [stepDca, onToolOutput] using ih
      | some n =>
        cases parsed with
        | none => simpa [stepDca, onToolOutput] using ih
        | some p =>
          simp only [stepDca, onToolOutput]
          split
          · exact ih
          · split
            · intro hx; simp at hx
            · split
              · intro hx
                simp only at hx ⊢
                exact ih hx
              · split
                · intro _; rfl
                · exact ih
    | proposalEvents ex de =>
      simp only [stepDca, onProposalEvents]
      split
      · split
        · intro hx; simp at hx
        · intro hx; simp at hx
      · split
        · intro hx; simp at hx
        · exact ih
    | reconcile outcome nowMs =>
      simp only [stepDca, reconcileProposalSubmission]
      split
      · exact ih
      · cases outcome with
        | receipt reverted =>
          simp only
          split
          · intro hx; simp at hx
          · exact ih
        | threw =>
          cases hms : s'.proposalSubmitMs with
          | none => simp only [hms]; exact ih
          | some ms =>
            simp only [hms]
            split
            · intro hx; simp at hx
            · exact ih

end DcaAgent

/-- C1: at-most-one pending proposal.  In any reachable DCA agent state
with `proposalPosted = true`, the pending-proposal indicator
`getPendingProposal` is true and the (spec-modelled) gate rejects a
further proposal-type tool call; and every clearing operation (proposal
execution or deletion event, failure or expiry reconciliation) yields a
state with all three step flags — proposalPosted, proposalBuilt,
depositConfirmed — false together, never a partial reset. -/
theorem dca_at_most_one_pending_proposal {s : DcaAgent.DcaState}
    (h : DcaAgent.ReachableDca s) (hp : s.proposalPosted = true) :
    (∀ onchainPending, DcaAgent.getPendingProposal onchainPending s = true) ∧
    DcaAgent.validateToolCall (DcaAgent.getPendingProposal false s) "post_bond_and_propose" =
      DcaAgent.ValidationResult.reject ("pending proposal outstanding") ∧
    (∀ e, DcaAgent.clearingEvent s e = true →
      (DcaAgent.stepDca s e).proposalPosted = false ∧
      (DcaAgent.stepDca s e).proposalBuilt = false ∧
      (DcaAgent.stepDca s e).depositConfirmed = false) := by
  refine ⟨?_, ?_, ?_⟩
  · intro b; simp [DcaAgent.getPendingProposal, hp]
  · simp [DcaAgent.getPendingProposal, hp, DcaAgent.validateToolCall]
  · intro e he
    have hdep := DcaAgent.posted_excludes_deposit h hp
    cases e with
    | toolOutput name parsed nowMs => simp [DcaAgent.clearingEvent] at he
    | proposalEvents ex de =>
      simp only [DcaAgent.clearingEvent] at he
      simp only [DcaAgent.stepDca, DcaAgent.onProposalEvents]
      rcases Bool.or_eq_true_iff.mp he with hex | hde
      · have hex' : ex > 0 := by simpa using hex
        rcases Nat.eq_zero_or_pos de with hde0 | hdepos
        · subst hde0
          simp [hex']
        · simp [hex', hdepos]
      · have hde' : de > 0 := by simpa using hde
        rcases Nat.eq_zero_or_pos ex with hex0 | hexpos
        · subst hex0
          simp [hde']
        · simp [hde', hexpos]
    | reconcile outcome nowMs =>
      simp only [DcaAgent.clearingEvent, Bool.and_eq_true, decide_eq_true_eq] at he
      obtain ⟨⟨⟨hpost, hhash⟩, hms⟩, hcond⟩ := he
      simp only [DcaAgent.stepDca, DcaAgent.reconcileProposalSubmission]
      rw [Option.isSome_iff_exists] at hhash hms
      obtain ⟨hv, hhash⟩ := hhash
      obtain ⟨mv, hms⟩ := hms
      have hguard : ¬(s.proposalPosted = false ∨ s.proposalSubmitHash = none ∨
          s.proposalSubmitMs = none) := by
        simp [hpost, hhash, hms]
      rw [if_neg hguard]
      cases outcome with
      | receipt reverted =>
        simp only at hcond
        simp only
        rw [if_pos (by simpa using hcond)]
        exact ⟨rfl, rfl, hdep⟩
      | threw =>
        simp only [hms] at hcond ⊢
        rw [if_pos (by simpa using hcond)]
        exact ⟨rfl, rfl, hdep⟩

/-- Witness for C1 at the concrete state reached by one submitted
post_bond_and_propose tool output. -/
theorem dca_at_most_one_pending_proposal_witness :
    (∀ onchainPending, DcaAgent.getPendingProposal onchainPending
      (DcaAgent.stepDca DcaAgent.initialDcaState
        (DcaAgent.AgentEvent.toolOutput (some "post_bond_and_propose")
          (some { status := "submitted", proposalHash := some "0xabc" }) 5000)) = true) ∧
    DcaAgent.validateToolCall true "post_bond_and_propose" =
      DcaAgent.ValidationResult.reject ("pending proposal outstanding") := by
  have hreach : DcaAgent.ReachableDca
      (DcaAgent.stepDca DcaAgent.initialDcaState
        (DcaAgent.AgentEvent.toolOutput (some "post_bond_and_propose")
          (some { status := "submitted", proposalHash := some "0xabc" }) 5000)) :=
    DcaAgent.ReachableDca.step _ DcaAgent.ReachableDca.init
  have h := dca_at_most_one_pending_proposal hreach (by decide)
  refine ⟨h.1, ?_⟩
  have h2 := h.2.1
  simpa [DcaAgent.getPendingProposal] using h2

namespace ClobLib

/-- An HTTP response as seen through `fetch`: the `ok` flag (2xx), the
status code, status text, and the response body text. -/
structure HttpResponse where
  ok : Bool
  status : Nat
  statusText : String
  body : String
deriving Repr, DecidableEq

/-- Embedding of `clobRequest({config, path, method, body})`.  The source
performs a single `fetch`, reads the body text, and on a non-2xx
response throws an error naming the method, path, status, status text
and body; on success it returns the (parsed) body.  `transport n` is the
response the transport would give to attempt number `n`; the second
component of the result counts the transport attempts actually made. -/
def clobRequest (transport : Nat → HttpResponse) (method path : String) :
    Except String String × Nat :=
  let r := transport 0
  if r.ok then (Except.ok r.body, 1)
  else
    (Except.error ("CLOB request failed (" ++ method ++ " " ++ path ++ "): "
        ++ toString r.status ++ " " ++ r.statusText ++ " " ++ r.body), 1)

/-- A transport that answers the first attempt with a 500 and every
later attempt with a 200, as in the transient-failure scenario. -/
def fiveHundredThenOk : Nat → HttpResponse := fun n =>
  if n = 0 then
    { ok := false, status := 500, statusText := "Internal Server Error",
      body := "temporary failure" }
  else
    { ok := true, status := 200, statusText := "OK", body := "canceled order-1" }

end ClobLib

/-- C2 counterexample: on a transport returning one 500 followed by a
200, `clobRequest` does not succeed on a second attempt — it makes
exactly one transport attempt and surfaces the 500 as an error, so the
claimed two-attempt retry behaviour is false on this code. -/
theorem clob_retry_counterexample :
    (ClobLib.fiveHundredThenOk 0).ok = false ∧
    (ClobLib.fiveHundredThenOk 0).status = 500 ∧
    (ClobLib.fiveHundredThenOk 1).ok = true ∧
    (ClobLib.clobRequest ClobLib.fiveHundredThenOk "DELETE" "/orders").2 ≠ 2 ∧
    (ClobLib.clobRequest ClobLib.fiveHundredThenOk "DELETE" "/orders").1 =
      Except.error
        ("CLOB request failed (DELETE /orders): 500 Internal Server Error temporary failure") := by
  refine ⟨rfl, rfl, rfl, by decide, rfl⟩

/-- C2 amended: a CLOB request makes exactly one transport attempt; a
2xx response is returned to the caller and any non-2xx response —
including a transient 500 — is surfaced immediately as an error carrying
the method, path, status, status text and body, with no retry. -/
theorem clob_request_single_attempt (transport : Nat → ClobLib.HttpResponse)
    (method path : String) :
    (ClobLib.clobRequest transport method path).2 = 1 ∧
    ((transport 0).ok = true →
      (ClobLib.clobRequest transport method path).1 = Except.ok ((transport 0).body)) ∧
    ((transport 0).ok = false →
      (ClobLib.clobRequest transport method path).1 =
        Except.error ("CLOB request failed (" ++ method ++ " " ++ path ++ "): "
          ++ toString (transport 0).status ++ " " ++ (transport 0).statusText
          ++ " " ++ (transport 0).body)) := by
  refine ⟨?_, ?_, ?_⟩
  · by_cases h : (transport 0).ok <;> simp [ClobLib.clobRequest, h]
  · intro h; simp [ClobLib.clobRequest, h]
  · intro h; simp [ClobLib.clobRequest, h]

/-- Witness for the amended C2 theorem at the concrete 500-then-200
transport. -/
theorem clob_request_single_attempt_witness :
    (ClobLib.clobRequest ClobLib.fiveHundredThenOk "DELETE" "/orders").2 = 1 ∧
    (ClobLib.clobRequest ClobLib.fiveHundredThenOk "DELETE" "/orders").1 =
      Except.error ("CLOB request failed (" ++ "DELETE" ++ " " ++ "/orders" ++ "): "
        ++ toString (ClobLib.fiveHundredThenOk 0).status
        ++ " " ++ (ClobLib.fiveHundredThenOk 0).statusText
        ++ " " ++ (ClobLib.fiveHundredThenOk 0).body) := by
  have h := clob_request_single_attempt ClobLib.fiveHundredThenOk "DELETE" "/orders"
  exact ⟨h.1, h.2.2 (by decide)⟩

namespace AgentMain

/-- A JS error value as consulted by the fallback handler: its optional
`shortMessage` and `message` fields and its string coercion. -/
structure JsError where
  shortMessage : Option String
  message : Option String
  asString : String
deriving Repr, DecidableEq

/-- Interface version of the governance-module `proposeTransactions`
call: V2 takes (transactions, explanation), V1 takes (transactions). -/
inductive OgVersion where
  | v2
  | v1
deriving Repr, DecidableEq

/-- Outcomes the RPC endpoint gives to the simulation and the real
submission of each interface version. -/
structure ProposeOutcomes where
  simulateV2 : Except JsError Unit
  writeV2 : Except JsError String
  simulateV1 : Except JsError Unit
  writeV1 : Except JsError String
deriving Repr

/-- The message chosen for the final propose failure:
`errorV1?.shortMessage ?? errorV1?.message ?? errorV2?.shortMessage ??
errorV2?.message ?? String(errorV1 ?? errorV2)`. -/
def coalesceMessage (errorV1 errorV2 : JsError) : String :=
  match errorV1.shortMessage with
  | some m => m
  | none =>
    match errorV1.message with
    | some m => m
    | none =>
      match errorV2.shortMessage with
      | some m => m
      | none =>
        match errorV2.message with
        | some m => m
        | none => errorV1.asString

/-- On-chain writes the submitter performs, in order of submission. -/
inductive WriteAction where
  | approve (token spender : String) (amount : Nat)
  | proposeTransactions (version : OgVersion)
deriving Repr, DecidableEq

/-- Result record of a successful `postBondAndPropose`; `version` names
the abi variant used by the successful `writeContract`. -/
structure ProposeResult where
  proposalHash : String
  version : OgVersion
  bondAmount : Nat
  collateral : String
  optimisticOracle : String
deriving Repr, DecidableEq

/-- The V1 arm of the fallback: simulate then send with the V1 abi; if
either throws, the propose error is raised with the coalesced message
of the V1 failure and the earlier V2 failure. -/
def proposeFallbackV1 (o : ProposeOutcomes) (errorV2 : JsError) :
    Except String (String × OgVersion) × List WriteAction :=
  match o.simulateV1 with
  | Except.ok _ =>
    match o.writeV1 with
    | Except.ok h =>
      (Except.ok (h, OgVersion.v1), [WriteAction.proposeTransactions OgVersion.v1])
    | Except.error e1 =>
      (Except.error ("Propose simulation failed: " ++ coalesceMessage e1 errorV2), [])
  | Except.error e1 =>
    (Except.error ("Propose simulation failed: " ++ coalesceMessage e1 errorV2), [])

/-- Embedding of the version-fallback tail of `postBondAndPropose`
(the `try`/`catch` over V2 then V1): simulate then send with the V2 abi
inside one try block, so a thrown error from either the simulation or
the send falls through to the V1 arm.  Writes record the submissions
reported as sent by the wallet client. -/
def proposePhase (o : ProposeOutcomes) :
    Except String (String × OgVersion) × List WriteAction :=
  match o.simulateV2 with
  | Except.ok _ =>
    match o.writeV2 with
    | Except.ok h =>
      (Except.ok (h, OgVersion.v2), [WriteAction.proposeTransactions OgVersion.v2])
    | Except.error e2 => proposeFallbackV1 o e2
  | Except.error e2 => proposeFallbackV1 o e2

/-- The failure of the V2 arm, when there is one: the error thrown by
its simulation, or else by its send. -/
def v2Failure (o : ProposeOutcomes) : Option JsError :=
  match o.simulateV2 with
  | Except.error e => some e
  | Except.ok _ =>
    match o.writeV2 with
    | Except.error e => some e
    | Except.ok _ => none

/-- The failure of the V1 arm, when there is one. -/
def v1Failure (o : ProposeOutcomes) : Option JsError :=
  match o.simulateV1 with
  | Except.error e => some e
  | Except.ok _ =>
    match o.writeV1 with
    | Except.error e => some e
    | Except.ok _ => none

/-- Environment of one `postBondAndPropose` run: the module reads, the
minimum-bond read outcome, the balances and post-approval allowances the
chain reports, and the outcomes of the submission attempts. -/
structure ProposeEnv where
  ogModule : String
  optimisticOracle : String
  collateral : String
  proposer : String
  bondAmount : Nat
  bondSpender : String
  minimumBondQuery : Except JsError Nat
  proposerNativeBalance : Nat
  collateralBalance : Nat
  allowanceAfterApprove : String → Nat
  outcomes : ProposeOutcomes

/-- The minimum bond after the guarded read: a failed `getMinimumBond`
read is caught and degrades to 0. -/
def effectiveMinimumBond (env : ProposeEnv) : Nat :=
  match env.minimumBondQuery with
  | Except.ok m => m
  | Except.error _ => 0

/-- requiredBond = bondAmount > minimumBond ? bondAmount : minimumBond. -/
def requiredBondOf (env : ProposeEnv) : Nat :=
  if env.bondAmount > effectiveMinimumBond env then env.bondAmount
  else effectiveMinimumBond env

/-- The spender list selected by `config.bondSpender`. -/
def bondSpenders (env : ProposeEnv) : List String :=
  (if env.bondSpender = "og" ∨ env.bondSpender = "both" then [env.ogModule] else []) ++
    (if env.bondSpender = "oo" ∨ env.bondSpender = "both" then [env.optimisticOracle] else [])

/-- The approval loop: approve `requiredBond` for each spender, re-read
the allowance, and fail when the re-read allowance still falls short. -/
def approveBonds (env : ProposeEnv) (requiredBond : Nat) :
    List String → Except String Unit × List WriteAction
  | [] => (Except.ok (), [])
  | spender :: rest =>
    let w := WriteAction.approve env.collateral spender requiredBond
    if env.allowanceAfterApprove spender < requiredBond then
      (Except.error ("Insufficient bond allowance: need " ++ toString requiredBond
        ++ " wei, have " ++ toString (env.allowanceAfterApprove spender)
        ++ " for spender " ++ spender ++ "."), [w])
    else
      match approveBonds env requiredBond rest with
      | (r, ws) => (r, w :: ws)

/-- Embedding of `postBondAndPropose` from the main agent module: the
required bond is the larger of the module bond amount and the oracle
minimum bond; when positive, the collateral balance is checked first
and a shortfall throws before any write; then allowances are granted
and re-checked per configured spender; then the zero-native-balance
check; then the V2/V1 submission fallback.  The second component lists
the on-chain writes performed, in order. -/
def postBondAndPropose (env : ProposeEnv) :
    Except String ProposeResult × List WriteAction :=
  let requiredBond := requiredBondOf env
  let afterBond : Except String Unit × List WriteAction :=
    if requiredBond > 0 then
      if env.collateralBalance < requiredBond then
        (Except.error ("Insufficient bond collateral balance: need "
          ++ toString requiredBond ++ " wei, have "
          ++ toString env.collateralBalance ++ "."), [])
      else approveBonds env requiredBond (bondSpenders env)
    else (Except.ok (), [])
  match afterBond with
  | (Except.error e, ws) => (Except.error e, ws)
  | (Except.ok _, ws) =>
    if env.proposerNativeBalance = 0 then
      (Except.error ("Proposer " ++ env.proposer
        ++ " has 0 native balance; cannot pay gas to propose."), ws)
    else
      match proposePhase env.outcomes with
      | (Except.ok (h, v), ws2) =>
        (Except.ok { proposalHash := h, version := v, bondAmount := env.bondAmount,
                     collateral := env.collateral,
                     optimisticOracle := env.optimisticOracle },
         ws ++ ws2)
      | (Except.error e, ws2) => (Except.error e, ws ++ ws2)

/-- Concrete environment in which the V2 simulation succeeds but the V2
send throws, while the V1 arm fully succeeds. -/
def envSimOkSendFails : ProposeEnv :=
  { ogModule := "0xOG"
    optimisticOracle := "0xOO"
    collateral := "0xC"
    proposer := "0xP"
    bondAmount := 0
    bondSpender := "og"
    minimumBondQuery := Except.ok 0
    proposerNativeBalance := 1
    collateralBalance := 0
    allowanceAfterApprove := fun _ => 0
    outcomes :=
      { simulateV2 := Except.ok ()
        writeV2 := Except.error
          { shortMessage := some "nonce too low", message := none, asString := "Error" }
        simulateV1 := Except.ok ()
        writeV1 := Except.ok "0xhash1" } }

end AgentMain

namespace AgentMain

/-- Concrete outcomes in which both interface attempts fail: the V2
simulation reverts, and the V1 simulation reverts with a short
message. -/
def oBothFail : ProposeOutcomes :=
  { simulateV2 := Except.error
      { shortMessage := none, message := some "v2 revert", asString := "Error" }
    writeV2 := Except.ok "unreached"
    simulateV1 := Except.error
      { shortMessage := some "v1 revert", message := none, asString := "Error" }
    writeV1 := Except.ok "unreached" }

/-- Concrete environment in which the module bond is 5, the oracle
minimum bond is 3, and the signer holds only 2 units of collateral. -/
def envShortfall : ProposeEnv :=
  { ogModule := "0xOG"
    optimisticOracle := "0xOO"
    collateral := "0xC"
    proposer := "0xP"
    bondAmount := 5
    bondSpender := "og"
    minimumBondQuery := Except.ok 3
    proposerNativeBalance := 1
    collateralBalance := 2
    allowanceAfterApprove := fun _ => 10
    outcomes :=
      { simulateV2 := Except.ok ()
        writeV2 := Except.ok "0xh2"
        simulateV1 := Except.ok ()
        writeV1 := Except.ok "0xh1" } }

end AgentMain

/-- C3 counterexample: in `envSimOkSendFails` the V2 simulation
succeeds, yet the real submission is performed with the V1 interface
(the V2 send threw and the catch block falls through to V1), refuting
the claim that the first interface whose simulation succeeds is the one
used for the real submission. -/
theorem propose_version_fallback_counterexample :
    AgentMain.envSimOkSendFails.outcomes.simulateV2 = Except.ok () ∧
    (AgentMain.postBondAndPropose AgentMain.envSimOkSendFails).1 =
      Except.ok { proposalHash := "0xhash1", version := AgentMain.OgVersion.v1,
                  bondAmount := 0, collateral := "0xC", optimisticOracle := "0xOO" } ∧
    (AgentMain.postBondAndPropose AgentMain.envSimOkSendFails).2 =
      [AgentMain.WriteAction.proposeTransactions AgentMain.OgVersion.v1] := by
  refine ⟨rfl, rfl, rfl⟩

/-- C3 amended: the submitter attempts V2 first — simulate then send —
and uses V2 when both steps succeed; if either V2 step throws it
attempts V1 — simulate then send — and uses V1 when both V1 steps
succeed, even when the V2 simulation had succeeded; only when both
attempts fail is an error raised, its message preferring the V1
failure message and falling back to the V2 one. -/
theorem propose_version_fallback_order (o : AgentMain.ProposeOutcomes) :
    (∀ h, o.simulateV2 = Except.ok () → o.writeV2 = Except.ok h →
      AgentMain.proposePhase o =
        (Except.ok (h, AgentMain.OgVersion.v2),
         [AgentMain.WriteAction.proposeTransactions AgentMain.OgVersion.v2])) ∧
    (∀ e2 h, AgentMain.v2Failure o = some e2 → o.simulateV1 = Except.ok () →
      o.writeV1 = Except.ok h →
      AgentMain.proposePhase o =
        (Except.ok (h, AgentMain.OgVersion.v1),
         [AgentMain.WriteAction.proposeTransactions AgentMain.OgVersion.v1])) ∧
    (∀ e2 e1, AgentMain.v2Failure o = some e2 → AgentMain.v1Failure o = some e1 →
      AgentMain.proposePhase o =
        (Except.error ("Propose simulation failed: " ++ AgentMain.coalesceMessage e1 e2),
         [])) := by
  refine ⟨?_, ?_, ?_⟩
  · intro h hs hw
    simp [AgentMain.proposePhase, hs, hw]
  · intro e2 h h2f hs1 hw1
    unfold AgentMain.v2Failure at h2f
    unfold AgentMain.proposePhase
    cases hsim2 : o.simulateV2 with
    | error e =>
      rw [hsim2] at h2f
      simp only [Option.some.injEq] at h2f
      subst h2f
      simp [AgentMain.proposeFallbackV1, hs1, hw1]
    | ok u =>
      rw [hsim2] at h2f
      cases hwr2 : o.writeV2 with
      | ok hh => rw [hwr2] at h2f; simp at h2f
      | error e =>
        rw [hwr2] at h2f
        simp only [Option.some.injEq] at h2f
        subst h2f
        simp [AgentMain.proposeFallbackV1, hs1, hw1]
  · intro e2 e1 h2f h1f
    unfold AgentMain.v2Failure at h2f
    unfold AgentMain.v1Failure at h1f
    unfold AgentMain.proposePhase AgentMain.proposeFallbackV1
    cases hsim2 : o.simulateV2 with
    | error e =>
      rw [hsim2] at h2f
      simp only [Option.some.injEq] at h2f
      subst h2f
      cases hsim1 : o.simulateV1 with
      | error f =>
        rw [hsim1] at h1f
        simp only [Option.some.injEq] at h1f
        subst h1f
        simp
      | ok u =>
        rw [hsim1] at h1f
        cases hwr1 : o.writeV1 with
        | ok hh => rw [hwr1] at h1f; simp at h1f
        | error f =>
          rw [hwr1] at h1f
          simp only [Option.some.injEq] at h1f
          subst h1f
          simp
    | ok u =>
      rw [hsim2] at h2f
      cases hwr2 : o.writeV2 with
      | ok hh => rw [hwr2] at h2f; simp at h2f
      | error e =>
        rw [hwr2] at h2f
        simp only [Option.some.injEq] at h2f
        subst h2f
        cases hsim1 : o.simulateV1 with
        | error f =>
          rw [hsim1] at h1f
          simp only [Option.some.injEq] at h1f
          subst h1f
          simp
        | ok u1 =>
          rw [hsim1] at h1f
          cases hwr1 : o.writeV1 with
          | ok hh => rw [hwr1] at h1f; simp at h1f
          | error f =>
            rw [hwr1] at h1f
            simp only [Option.some.injEq] at h1f
            subst h1f
            simp

/-- Witness for the amended C3 theorem: with both attempts failing the
raised message carries the V1 short message. -/
theorem propose_version_fallback_order_witness :
    AgentMain.proposePhase AgentMain.oBothFail =
      (Except.error ("Propose simulation failed: v1 revert"), []) := by
  have h := (propose_version_fallback_order AgentMain.oBothFail).2.2
    { shortMessage := none, message := some "v2 revert", asString := "Error" }
    { shortMessage := some "v1 revert", message := none, asString := "Error" }
    (by rfl) (by rfl)
  exact h.trans (by rfl)

/-- C4: the required bond is the maximum of the module bond amount and
the oracle minimum bond, and whenever it is positive and the signer
collateral balance falls short, `postBondAndPropose` throws an error
stating both the required and the available amounts with no on-chain
write performed. -/
theorem bond_preflight_shortfall (env : AgentMain.ProposeEnv)
    (h1 : 0 < AgentMain.requiredBondOf env)
    (h2 : env.collateralBalance < AgentMain.requiredBondOf env) :
    AgentMain.requiredBondOf env =
      max env.bondAmount (AgentMain.effectiveMinimumBond env) ∧
    AgentMain.postBondAndPropose env =
      (Except.error ("Insufficient bond collateral balance: need "
        ++ toString (AgentMain.requiredBondOf env) ++ " wei, have "
        ++ toString env.collateralBalance ++ "."), []) := by
  constructor
  · unfold AgentMain.requiredBondOf
    split <;> omega
  · have h1' : AgentMain.requiredBondOf env > 0 := h1
    unfold AgentMain.postBondAndPropose
    dsimp only
    rw [if_pos h1', if_pos h2]

/-- Witness for C4 in `envShortfall`: bond 5, minimum bond 3, balance 2
yield the shortfall error naming 5 and 2, with no writes. -/
theorem bond_preflight_shortfall_witness :
    AgentMain.requiredBondOf AgentMain.envShortfall =
      max AgentMain.envShortfall.bondAmount
        (AgentMain.effectiveMinimumBond AgentMain.envShortfall) ∧
    AgentMain.postBondAndPropose AgentMain.envShortfall =
      (Except.error ("Insufficient bond collateral balance: need 5 wei, have 2."), []) := by
  have h := bond_preflight_shortfall AgentMain.envShortfall (by decide) (by decide)
  exact ⟨h.1, h.2.trans (by rfl)⟩

namespace AgentMain

/-- The zero address used as asset of native deposits. -/
def zeroAddress : String := "0x0000000000000000000000000000000000000000"

/-- A Transfer event log as returned by the ledger log query. -/
structure TransferLog where
  fromAddr : String
  amount : Nat
  blockNumber : Nat
  transactionHash : String
deriving Repr, DecidableEq

/-- A detected deposit signal. -/
structure Deposit where
  kind : String
  asset : String
  fromAddr : String
  amount : Nat
  blockNumber : Nat
  transactionHash : Option String
deriving Repr, DecidableEq

/-- The mutable detector state of the module: the block cursor
`lastCheckedBlock` and the native-balance baseline. -/
structure PollState where
  lastCheckedBlock : Option Nat
  lastNativeBalance : Option Nat
deriving Repr, DecidableEq

/-- The chain as seen during one `pollCommitmentChanges` invocation:
the current head, the tracked asset list, the native-watch flag, and
the outcome of each log or balance query. -/
structure ChainEnv where
  latestBlock : Nat
  trackedAssets : List String
  watchNativeBalance : Bool
  getLogs : String → Nat → Nat → Except String (List TransferLog)
  getBalance : Nat → Except String Nat

/-- The per-asset log loop: queries the Transfer logs of each tracked
asset over the range and flattens them to erc20Deposit signals; a
thrown query propagates, discarding the partial results. -/
def collectErc20Deposits (env : ChainEnv) (fromBlock toBlock : Nat) :
    List String → Except String (List Deposit)
  | [] => Except.ok []
  | asset :: rest =>
    match env.getLogs asset fromBlock toBlock with
    | Except.error e => Except.error e
    | Except.ok logs =>
      match collectErc20Deposits env fromBlock toBlock rest with
      | Except.error e => Except.error e
      | Except.ok more =>
        Except.ok ((logs.map fun log =>
          { kind := "erc20Deposit", asset := asset, fromAddr := log.fromAddr,
            amount := log.amount, blockNumber := log.blockNumber,
            transactionHash := some log.transactionHash }) ++ more)

/-- Embedding of `pollCommitmentChanges`.  An undefined cursor primes
the cursor to the head (and the balance baseline) and returns no
signals; a head at or below the cursor is an idempotent no-op; else the
range `(cursor+1 .. head]` is scanned asset by asset, then the native
balance compared against the baseline, and only after every query
succeeded are the baseline and the cursor advanced.  The returned state
is the post-invocation mutable state (mutations the source performs
before a throw are kept, as in JS). -/
def pollCommitmentChanges (env : ChainEnv) (s : PollState) :
    Except String (List Deposit) × PollState :=
  match s.lastCheckedBlock with
  | none =>
    let s1 : PollState := { s with lastCheckedBlock := some env.latestBlock }
    if env.watchNativeBalance then
      match env.getBalance env.latestBlock with
      | Except.ok b => (Except.ok [], { s1 with lastNativeBalance := some b })
      | Except.error e => (Except.error e, s1)
    else (Except.ok [], s1)
  | some cursor =>
    if env.latestBlock ≤ cursor then (Except.ok [], s)
    else
      let fromBlock := cursor + 1
      let toBlock := env.latestBlock
      match collectErc20Deposits env fromBlock toBlock env.trackedAssets with
      | Except.error e => (Except.error e, s)
      | Except.ok deposits =>
        if env.watchNativeBalance then
          match env.getBalance toBlock with
          | Except.error e => (Except.error e, s)
          | Except.ok nativeBalance =>
            let withNative :=
              match s.lastNativeBalance with
              | some lastBal =>
                if nativeBalance > lastBal then
                  deposits ++ [{ kind := "nativeDeposit", asset := zeroAddress,
                                 fromAddr := "unknown",
                                 amount := nativeBalance - lastBal,
                                 blockNumber := toBlock, transactionHash := none }]
                else deposits
              | none => deposits
            (Except.ok withNative,
             { lastCheckedBlock := some toBlock, lastNativeBalance := some nativeBalance })
        else (Except.ok deposits, { s with lastCheckedBlock := some toBlock })

/-- If the per-asset loop returned deposits, every tracked asset log
query succeeded. -/
theorem collectErc20Deposits_ok_of_mem (env : ChainEnv) (fromBlock toBlock : Nat)
    (assets : List String) (ds : List Deposit)
    (h : collectErc20Deposits env fromBlock toBlock assets = Except.ok ds) :
    ∀ asset ∈ assets, ∃ logs, env.getLogs asset fromBlock toBlock = Except.ok logs := by
  induction assets generalizing ds with
  | nil => intro a ha; cases ha
  | cons x rest ih =>
    intro a ha
    unfold collectErc20Deposits at h
    cases hx : env.getLogs x fromBlock toBlock with
    | error e => rw [hx] at h; cases h
    | ok logs =>
      rw [hx] at h
      cases hrest : collectErc20Deposits env fromBlock toBlock rest with
      | error e => rw [hrest] at h; cases h
      | ok more =>
        rcases List.mem_cons.mp ha with rfl | hmem
        · exact ⟨logs, hx⟩
        · exact ih more hrest a hmem


/-- Unfolding equation of `pollCommitmentChanges` for a defined cursor. -/
theorem pollCommitmentChanges_cursor_some (env : ChainEnv) (s : PollState)
    (cursor : Nat) (hc : s.lastCheckedBlock = some cursor) :
    pollCommitmentChanges env s =
      (if env.latestBlock <= cursor then (Except.ok [], s)
       else
        match collectErc20Deposits env (cursor + 1) env.latestBlock env.trackedAssets with
        | Except.error e => (Except.error e, s)
        | Except.ok deposits =>
          if env.watchNativeBalance then
            match env.getBalance env.latestBlock with
            | Except.error e => (Except.error e, s)
            | Except.ok nativeBalance =>
              (Except.ok
                (match s.lastNativeBalance with
                 | some lastBal =>
                   if nativeBalance > lastBal then
                     deposits ++ [{ kind := "nativeDeposit", asset := zeroAddress,
                                    fromAddr := "unknown",
                                    amount := nativeBalance - lastBal,
                                    blockNumber := env.latestBlock,
                                    transactionHash := none }]
                   else deposits
                 | none => deposits),
               { lastCheckedBlock := some env.latestBlock,
                 lastNativeBalance := some nativeBalance })
          else
            (Except.ok deposits, { s with lastCheckedBlock := some env.latestBlock })) := by
  obtain ⟨lcb, lnb⟩ := s
  simp only at hc
  subst hc
  rfl

/-- Unfolding equation of `pollCommitmentChanges` for an undefined
cursor (the priming branch). -/
theorem pollCommitmentChanges_cursor_none (env : ChainEnv) (s : PollState)
    (hc : s.lastCheckedBlock = none) :
    pollCommitmentChanges env s =
      (if env.watchNativeBalance then
        match env.getBalance env.latestBlock with
        | Except.ok b =>
          (Except.ok [], { lastCheckedBlock := some env.latestBlock,
                           lastNativeBalance := some b })
        | Except.error e =>
          (Except.error e, { s with lastCheckedBlock := some env.latestBlock })
       else
        (Except.ok [], { s with lastCheckedBlock := some env.latestBlock })) := by
  obtain ⟨lcb, lnb⟩ := s
  simp only at hc
  subst hc
  rfl

/-- A concrete chain environment whose single tracked asset query
throws. -/
def envQueryFails : ChainEnv :=
  { latestBlock := 10
    trackedAssets := ["0xA"]
    watchNativeBalance := true
    getLogs := fun _ _ _ => Except.error "log query failed"
    getBalance := fun _ => Except.ok 0 }

/-- A concrete chain environment with no new blocks past cursor 5. -/
def envNoNewBlocks : ChainEnv :=
  { latestBlock := 5
    trackedAssets := ["0xA"]
    watchNativeBalance := true
    getLogs := fun _ _ _ => Except.ok []
    getBalance := fun _ => Except.ok 7 }

end AgentMain


/-- C8: over a block range (a defined cursor), a thrown per-asset log
query or native balance query aborts the whole detection with the error
and leaves the detector state — in particular the cursor — unchanged;
and whenever the cursor moved, the invocation succeeded, the cursor
moved to the chain head, every tracked asset log query over the range
succeeded and (when native watching is on) so did the balance query. -/
theorem poll_cursor_atomicity (env : AgentMain.ChainEnv) (s : AgentMain.PollState)
    (cursor : Nat) (hc : s.lastCheckedBlock = some cursor) :
    (∀ e, (AgentMain.pollCommitmentChanges env s).1 = Except.error e →
      (AgentMain.pollCommitmentChanges env s).2 = s) ∧
    ((AgentMain.pollCommitmentChanges env s).2.lastCheckedBlock ≠ s.lastCheckedBlock →
      (AgentMain.pollCommitmentChanges env s).2.lastCheckedBlock = some env.latestBlock ∧
      (∃ sig, (AgentMain.pollCommitmentChanges env s).1 = Except.ok sig) ∧
      (∀ asset ∈ env.trackedAssets,
        ∃ logs, env.getLogs asset (cursor + 1) env.latestBlock = Except.ok logs) ∧
      (env.watchNativeBalance = true →
        ∃ b, env.getBalance env.latestBlock = Except.ok b)) := by
  rw [AgentMain.pollCommitmentChanges_cursor_some env s cursor hc]
  by_cases hle : env.latestBlock ≤ cursor
  · rw [if_pos hle]
    constructor
    · intro e he
      cases he
    · intro hne
      exact absurd rfl hne
  · rw [if_neg hle]
    cases hcol : AgentMain.collectErc20Deposits env (cursor + 1) env.latestBlock
        env.trackedAssets with
    | error e =>
      constructor
      · intro e' he
        rfl
      · intro hne
        exact absurd rfl hne
    | ok deposits =>
      dsimp only
      have hall := AgentMain.collectErc20Deposits_ok_of_mem env (cursor + 1)
        env.latestBlock env.trackedAssets deposits hcol
      by_cases hw : env.watchNativeBalance = true
      · rw [if_pos hw]
        cases hbal : env.getBalance env.latestBlock with
        | error e =>
          constructor
          · intro e' he
            rfl
          · intro hne
            exact absurd rfl hne
        | ok b =>
          constructor
          · intro e he
            cases he
          · intro hne
            exact ⟨rfl, ⟨_, rfl⟩, hall, fun _ => ⟨b, rfl⟩⟩
      · rw [if_neg hw]
        constructor
        · intro e he
          cases he
        · intro hne
          refine ⟨rfl, ⟨deposits, rfl⟩, hall, ?_⟩
          intro hw'
          exact absurd hw' hw

/-- Witness for C8: with the failing log query of `envQueryFails` the
detection surfaces the error and the state with cursor 5 is unchanged. -/
theorem poll_cursor_atomicity_witness :
    (AgentMain.pollCommitmentChanges AgentMain.envQueryFails
      { lastCheckedBlock := some 5, lastNativeBalance := some 0 }).1 =
        Except.error "log query failed" ∧
    (AgentMain.pollCommitmentChanges AgentMain.envQueryFails
      { lastCheckedBlock := some 5, lastNativeBalance := some 0 }).2 =
        { lastCheckedBlock := some 5, lastNativeBalance := some 0 } := by
  have h := (poll_cursor_atomicity AgentMain.envQueryFails
    { lastCheckedBlock := some 5, lastNativeBalance := some 0 } 5 rfl).1
  exact ⟨rfl, h "log query failed" rfl⟩

/-- C9: with the chain head at or below the stored cursor the detection
returns the empty signal list with the state unchanged; and after any
successful invocation, a second invocation with no new blocks mined
returns the empty signal list and leaves the state — in particular the
cursor — unchanged. -/
theorem poll_idempotent_detection (env : AgentMain.ChainEnv) (s : AgentMain.PollState) :
    (∀ cursor, s.lastCheckedBlock = some cursor → env.latestBlock ≤ cursor →
      AgentMain.pollCommitmentChanges env s = (Except.ok [], s)) ∧
    (∀ sig, (AgentMain.pollCommitmentChanges env s).1 = Except.ok sig →
      AgentMain.pollCommitmentChanges env ((AgentMain.pollCommitmentChanges env s).2) =
        (Except.ok [], (AgentMain.pollCommitmentChanges env s).2)) := by
  have hbase : ∀ (t : AgentMain.PollState) (cursor : Nat),
      t.lastCheckedBlock = some cursor → env.latestBlock ≤ cursor →
      AgentMain.pollCommitmentChanges env t = (Except.ok [], t) := by
    intro t cursor hcb hle
    rw [AgentMain.pollCommitmentChanges_cursor_some env t cursor hcb, if_pos hle]
  refine ⟨fun cursor hcb hle => hbase s cursor hcb hle, ?_⟩
  intro sig hok
  have hcursor :
      (AgentMain.pollCommitmentChanges env s).2.lastCheckedBlock = some env.latestBlock ∨
      ((AgentMain.pollCommitmentChanges env s).2 = s ∧
        ∃ c, s.lastCheckedBlock = some c ∧ env.latestBlock ≤ c) := by
    cases hc0 : s.lastCheckedBlock with
    | none =>
      rw [AgentMain.pollCommitmentChanges_cursor_none env s hc0] at hok ⊢
      by_cases hw : env.watchNativeBalance = true
      · rw [if_pos hw] at hok ⊢
        cases hbal : env.getBalance env.latestBlock with
        | error e =>
          rw [hbal] at hok
          simp at hok
        | ok b =>
          left
          rfl
      · rw [if_neg hw]
        left
        rfl
    | some cursor =>
      rw [AgentMain.pollCommitmentChanges_cursor_some env s cursor hc0] at hok ⊢
      by_cases hle : env.latestBlock ≤ cursor
      · rw [if_pos hle]
        exact Or.inr ⟨rfl, cursor, rfl, hle⟩
      · rw [if_neg hle] at hok ⊢
        cases hcol : AgentMain.collectErc20Deposits env (cursor + 1) env.latestBlock
            env.trackedAssets with
        | error e =>
          rw [hcol] at hok
          simp at hok
        | ok deposits =>
          rw [hcol] at hok
          dsimp only at hok ⊢
          by_cases hw : env.watchNativeBalance = true
          · rw [if_pos hw] at hok ⊢
            cases hbal : env.getBalance env.latestBlock with
            | error e =>
              rw [hbal] at hok
              simp at hok
            | ok b =>
              left
              rfl
          · rw [if_neg hw]
            left
            rfl
  rcases hcursor with hhead | ⟨hsame, c, hcb, hle⟩
  · exact hbase _ env.latestBlock hhead le_rfl
  · rw [hsame]
    exact hbase s c hcb hle

/-- Witness for C9 at cursor 5 with the head also at 5: both calls
return the empty list and the state is never mutated. -/
theorem poll_idempotent_detection_witness :
    AgentMain.pollCommitmentChanges AgentMain.envNoNewBlocks
      { lastCheckedBlock := some 5, lastNativeBalance := some 7 } =
      (Except.ok [], { lastCheckedBlock := some 5, lastNativeBalance := some 7 }) ∧
    AgentMain.pollCommitmentChanges AgentMain.envNoNewBlocks
      ((AgentMain.pollCommitmentChanges AgentMain.envNoNewBlocks
        { lastCheckedBlock := some 5, lastNativeBalance := some 7 }).2) =
      (Except.ok [], (AgentMain.pollCommitmentChanges AgentMain.envNoNewBlocks
        { lastCheckedBlock := some 5, lastNativeBalance := some 7 }).2) := by
  have h := poll_idempotent_detection AgentMain.envNoNewBlocks
    { lastCheckedBlock := some 5, lastNativeBalance := some 7 }
  exact ⟨h.1 5 rfl (by decide), h.2 [] rfl⟩

namespace AgentMain

/-- Call data produced by the abi encoder.  The byte-level encoding of
`encodeFunctionData` is modelled opaquely by constructors naming the
function encoded and its arguments. -/
inductive CallData where
  | erc20Transfer (toAddr : String) (amount : Nat)
  | empty
  | encoded (signature : String) (args : List String)
deriving Repr, DecidableEq

/-- A built governor transaction {to, value, data, operation} with the
value kept as a string of wei, as the source produces it. -/
structure OgTx where
  toAddr : String
  value : String
  data : CallData
  operation : Nat
deriving Repr, DecidableEq

/-- One high-level action passed to `build_og_transactions`.  Optional
fields model absent or null JSON fields; a `some ""` string is falsy in
the source checks, like an absent one. -/
structure OgAction where
  kind : String
  token : Option String
  toAddr : Option String
  amountWei : Option Nat
  valueWei : Option Nat
  abi : Option String
  args : Option (List String)
  operation : Option Nat
deriving Repr, DecidableEq

/-- JS truthiness of an optional string field. -/
def jsTruthy : Option String → Bool
  | none => false
  | some s => !(s = "")

/-- Embedding of one arm of the `actions.map` callback in the main
module `buildOgTransactions`. -/
def buildOgTransaction (action : OgAction) : Except String OgTx :=
  let operation := action.operation.getD 0
  if action.kind = "erc20_transfer" then
    if jsTruthy action.token = false ∨ jsTruthy action.toAddr = false ∨
        action.amountWei = none then
      Except.error ("erc20_transfer requires token, to, amountWei")
    else
      Except.ok { toAddr := action.token.getD "", value := "0",
                  data := CallData.erc20Transfer (action.toAddr.getD "")
                    (action.amountWei.getD 0),
                  operation := operation }
  else if action.kind = "native_transfer" then
    if jsTruthy action.toAddr = false ∨ action.amountWei = none then
      Except.error ("native_transfer requires to, amountWei")
    else
      Except.ok { toAddr := action.toAddr.getD "",
                  value := toString (action.amountWei.getD 0),
                  data := CallData.empty, operation := operation }
  else if action.kind = "contract_call" then
    if jsTruthy action.toAddr = false ∨ jsTruthy action.abi = false then
      Except.error ("contract_call requires to, abi")
    else
      Except.ok { toAddr := action.toAddr.getD "",
                  value := toString (action.valueWei.getD 0),
                  data := CallData.encoded (action.abi.getD "") (action.args.getD []),
                  operation := operation }
  else Except.error ("Unknown action kind: " ++ action.kind)

/-- Sequential compilation of the action list; a thrown arm aborts the
whole map, so nothing partial is emitted. -/
def mapBuildActions : List OgAction → Except String (List OgTx)
  | [] => Except.ok []
  | a :: rest =>
    match buildOgTransaction a with
    | Except.error e => Except.error e
    | Except.ok tx =>
      match mapBuildActions rest with
      | Except.error e => Except.error e
      | Except.ok txs => Except.ok (tx :: txs)

/-- Embedding of the main module `buildOgTransactions`: rejects an empty
action list, then compiles each action. -/
def buildOgTransactions (actions : List OgAction) : Except String (List OgTx) :=
  if actions = [] then Except.error ("actions must be a non-empty array")
  else mapBuildActions actions

/-- A transaction argument of a `post_bond_and_propose` tool call,
already through `getAddress`/`BigInt`/`Number` conversion. -/
structure TxArg where
  toAddr : String
  value : Nat
  data : String
  operation : Nat
deriving Repr, DecidableEq

/-- Parsed arguments of one tool call (the result of
`parseToolArguments` plus the fields each tool reads). -/
structure ToolArgs where
  actions : Option (List OgAction)
  asset : Option String
  amountWei : Option Nat
  transactions : Option (List TxArg)
deriving Repr, DecidableEq

/-- One tool call from the decision service; `arguments = none` models
arguments that fail `parseToolArguments`. -/
structure ToolCall where
  name : String
  arguments : Option ToolArgs
  callId : Option String
deriving Repr, DecidableEq

/-- The view of one tool output entry pushed by the execution loop (the
source serializes these to JSON strings). -/
inductive OutputView where
  | buildOk (transactions : List OgTx)
  | buildError (message : String)
  | depositSubmitted (transactionHash : String)
  | proposeSubmitted (result : String)
  | skippedUnknown
deriving Repr, DecidableEq

/-- A tool output entry. -/
structure ToolOutput where
  callId : Option String
  output : OutputView
deriving Repr, DecidableEq

/-- The on-chain side effects `executeToolCalls` can trigger, recorded
at the moment it invokes the corresponding function. -/
inductive AgentEffect where
  | makeDeposit (asset : Option String) (amountWei : Nat)
  | proposeFromToolCall (transactions : List TxArg)
  | autoPostBondAndPropose (transactions : List OgTx)
deriving Repr, DecidableEq

/-- Outcomes of the on-chain operations of `executeToolCalls`: each
stands for one `await` of `makeDeposit` or `postBondAndPropose` (called
on the tool-call transactions, or on the built batch). -/
structure ExecEnv where
  makeDepositResult : Option String → Nat → Except String String
  proposeToolResult : List TxArg → Except String String
  autoProposeResult : List OgTx → Except String String

/-- Prepend one output entry to the loop result. -/
def prependOut (out : ToolOutput) :
    Except String (List ToolOutput × Option (List OgTx)) × List AgentEffect →
    Except String (List ToolOutput × Option (List OgTx)) × List AgentEffect
  | (Except.ok (outs, built), effs) => (Except.ok (out :: outs, built), effs)
  | (Except.error e, effs) => (Except.error e, effs)

/-- Prepend one effect to the loop result. -/
def prependEff (eff : AgentEffect)
    (p : Except String (List ToolOutput × Option (List OgTx)) × List AgentEffect) :
    Except String (List ToolOutput × Option (List OgTx)) × List AgentEffect :=
  (p.1, eff :: p.2)

/-- The per-call loop of `executeToolCalls`: invalid arguments skip the
call, a successful `build_og_transactions` stores its result in
`builtTransactions` (last success wins), deposits and proposals run
their on-chain operation and a thrown one propagates, aborting the
loop; unknown tools produce a skipped entry. -/
def execLoop (env : ExecEnv) :
    List ToolCall → Option (List OgTx) →
    Except String (List ToolOutput × Option (List OgTx)) × List AgentEffect
  | [], built => (Except.ok ([], built), [])
  | call :: rest, built =>
    match call.arguments with
    | none => execLoop env rest built
    | some args =>
      if call.name = "build_og_transactions" then
        match buildOgTransactions (args.actions.getD []) with
        | Except.ok txs =>
          prependOut { callId := call.callId, output := OutputView.buildOk txs }
            (execLoop env rest (some txs))
        | Except.error msg =>
          prependOut { callId := call.callId, output := OutputView.buildError msg }
            (execLoop env rest built)
      else if call.name = "make_deposit" then
        match args.amountWei with
        | none => (Except.error ("Cannot convert undefined to a BigInt"), [])
        | some amt =>
          match env.makeDepositResult args.asset amt with
          | Except.error e => (Except.error e, [AgentEffect.makeDeposit args.asset amt])
          | Except.ok txHash =>
            prependEff (AgentEffect.makeDeposit args.asset amt)
              (prependOut { callId := call.callId,
                            output := OutputView.depositSubmitted txHash }
                (execLoop env rest built))
      else if call.name = "post_bond_and_propose" then
        match args.transactions with
        | none => (Except.error ("Cannot read properties of undefined"), [])
        | some txs =>
          match env.proposeToolResult txs with
          | Except.error e =>
            (Except.error e, [AgentEffect.proposeFromToolCall txs])
          | Except.ok r =>
            prependEff (AgentEffect.proposeFromToolCall txs)
              (prependOut { callId := call.callId,
                            output := OutputView.proposeSubmitted r }
                (execLoop env rest built))
      else
        prependOut { callId := call.callId, output := OutputView.skippedUnknown }
          (execLoop env rest built)

/-- Embedding of `executeToolCalls`: `hasPostProposal` is computed over
the whole batch up front; after the loop, when `builtTransactions` is
set and no `post_bond_and_propose` call appeared in the batch,
`postBondAndPropose` is invoked on the built batch; finally the outputs
without a call identifier are filtered out. -/
def executeToolCalls (env : ExecEnv) (toolCalls : List ToolCall) :
    Except String (List ToolOutput) × List AgentEffect :=
  let hasPostProposal := toolCalls.any fun c => c.name = "post_bond_and_propose"
  match execLoop env toolCalls none with
  | (Except.error e, effs) => (Except.error e, effs)
  | (Except.ok (outs, built), effs) =>
    match built with
    | some txs =>
      if hasPostProposal then
        (Except.ok (outs.filter fun o => o.callId.isSome), effs)
      else
        match env.autoProposeResult txs with
        | Except.ok _ =>
          (Except.ok (outs.filter fun o => o.callId.isSome),
           effs ++ [AgentEffect.autoPostBondAndPropose txs])
        | Except.error e =>
          (Except.error e, effs ++ [AgentEffect.autoPostBondAndPropose txs])
    | none => (Except.ok (outs.filter fun o => o.callId.isSome), effs)

/-- A concrete execution environment whose on-chain operations all
succeed. -/
def envAllOk : ExecEnv :=
  { makeDepositResult := fun _ _ => Except.ok "0xdep"
    proposeToolResult := fun _ => Except.ok "0xprop"
    autoProposeResult := fun _ => Except.ok "0xauto" }

/-- A concrete batch holding one successful build call and no proposal
call. -/
def buildOnlyBatch : List ToolCall :=
  [{ name := "build_og_transactions"
     arguments := some
       { actions := some
           [{ kind := "erc20_transfer", token := some "0xTOK", toAddr := some "0xDST",
              amountWei := some 100000, valueWei := none, abi := none,
              args := none, operation := some 0 }]
         asset := none, amountWei := none, transactions := none }
     callId := some "call-1" }]

end AgentMain

/-- C10: whenever the execution loop of a tool-call batch completes with
`builtTransactions` set (a `build_og_transactions` call succeeded) and
no `post_bond_and_propose` call appears anywhere in the batch, the agent
automatically invokes `postBondAndPropose` on the built batch after the
loop — an on-chain proposal is created without the proposal tool ever
being requested. -/
theorem executeToolCalls_auto_propose (env : AgentMain.ExecEnv)
    (toolCalls : List AgentMain.ToolCall) (outs : List AgentMain.ToolOutput)
    (txs : List AgentMain.OgTx) (effs : List AgentMain.AgentEffect)
    (hloop : AgentMain.execLoop env toolCalls none = (Except.ok (outs, some txs), effs))
    (hnopost : ∀ c ∈ toolCalls, c.name ≠ "post_bond_and_propose") :
    (AgentMain.executeToolCalls env toolCalls).2 =
      effs ++ [AgentMain.AgentEffect.autoPostBondAndPropose txs] := by
  have hany : (toolCalls.any fun c => c.name = "post_bond_and_propose") = false := by
    rw [List.any_eq_false]
    intro c hc
    simpa using hnopost c hc
  unfold AgentMain.executeToolCalls
  rw [hloop]
  simp only [hany]
  cases henv : env.autoProposeResult txs <;> simp [henv]

/-- Witness for C10: the one-call batch `buildOnlyBatch` triggers the
automatic `postBondAndPropose` invocation on the built transaction. -/
theorem executeToolCalls_auto_propose_witness :
    (AgentMain.executeToolCalls AgentMain.envAllOk AgentMain.buildOnlyBatch).2 =
      [AgentMain.AgentEffect.autoPostBondAndPropose
        [{ toAddr := "0xTOK", value := "0",
           data := AgentMain.CallData.erc20Transfer "0xDST" 100000,
           operation := 0 }]] := by
  have h := executeToolCalls_auto_propose AgentMain.envAllOk AgentMain.buildOnlyBatch
    [{ callId := some "call-1",
       output := AgentMain.OutputView.buildOk
         [{ toAddr := "0xTOK", value := "0",
            data := AgentMain.CallData.erc20Transfer "0xDST" 100000,
            operation := 0 }] }]
    [{ toAddr := "0xTOK", value := "0",
       data := AgentMain.CallData.erc20Transfer "0xDST" 100000,
       operation := 0 }]
    [] rfl (by decide)
  simpa using h

namespace TxLib

/-- Call data of the extended compiler, with the abi encoding modelled
opaquely by constructors naming the encoded function and arguments. -/
inductive TxCallData where
  | approve (spender : String) (amount : Nat)
  | exactInputSingle (tokenIn tokenOut : String) (fee : Nat) (recipient : String)
      (amountIn amountOutMinimum : Nat) (sqrtPriceLimitX96 : Nat)
  | splitPosition (collateralToken parentCollectionId conditionId : String)
      (partition : List Nat) (amount : Nat)
deriving Repr, DecidableEq

/-- A compiled governor transaction of the extended compiler. -/
structure TxLibTx where
  toAddr : String
  value : String
  data : TxCallData
  operation : Nat
deriving Repr, DecidableEq

/-- High-level actions of the extended compiler relevant here: the
routed swap and the collateral split. -/
inductive TxAction where
  | uniswapV3ExactInputSingle (router tokenIn tokenOut : String) (fee : Nat)
      (recipient : String) (amountInWei amountOutMinWei : Nat)
      (sqrtPriceLimitX96 : Option Nat) (operation : Nat)
  | ctfSplit (ctfContract : Option String) (collateralToken : String)
      (conditionId : String) (parentCollectionId : Option String)
      (partition : List Nat) (amount : Nat) (operation : Nat)
deriving Repr, DecidableEq

/-- Configuration consulted by the split expansion for the default
conditional-tokens contract. -/
structure TxConfig where
  polymarketConditionalTokens : Option String
deriving Repr, DecidableEq

/-- The zero parent collection identifier. -/
def zeroBytes32 : String :=
  "0x0000000000000000000000000000000000000000000000000000000000000000"

/-- Modelled from the spec: the extended `buildOgTransactions` of
src/lib/tx.js is missing from the captured sources (only its test is).
Per the spec, a `uniswap_v3_exact_input_single` action expands to
exactly two calls — an approve of exactly the input amount for the
router on the input token, then the exact-input-single call on the
router — and a `ctf_split` action expands to exactly three calls on the
resolved split contract — reset allowance to zero, set allowance to the
exact split amount, then the split call with the matching partition and
amount. -/
def buildOgTransaction (config : TxConfig) (action : TxAction) :
    Except String (List TxLibTx) :=
  match action with
  | TxAction.uniswapV3ExactInputSingle router tokenIn tokenOut fee recipient
      amountInWei amountOutMinWei sqrtPriceLimitX96 operation =>
    Except.ok
      [{ toAddr := tokenIn, value := "0",
         data := TxCallData.approve router amountInWei, operation := operation },
       { toAddr := router, value := "0",
         data := TxCallData.exactInputSingle tokenIn tokenOut fee recipient
           amountInWei amountOutMinWei (sqrtPriceLimitX96.getD 0),
         operation := operation }]
  | TxAction.ctfSplit ctfContract collateralToken conditionId parentCollectionId
      partition amount operation =>
    match ctfContract, config.polymarketConditionalTokens with
    | none, none =>
      Except.error ("ctf_split requires ctfContract or POLYMARKET_CONDITIONAL_TOKENS")
    | some ctf, _ =>
      Except.ok
        [{ toAddr := collateralToken, value := "0",
           data := TxCallData.approve ctf 0, operation := operation },
         { toAddr := collateralToken, value := "0",
           data := TxCallData.approve ctf amount, operation := operation },
         { toAddr := ctf, value := "0",
           data := TxCallData.splitPosition collateralToken
             (parentCollectionId.getD zeroBytes32) conditionId partition amount,
           operation := operation }]
    | none, some ctf =>
      Except.ok
        [{ toAddr := collateralToken, value := "0",
           data := TxCallData.approve ctf 0, operation := operation },
         { toAddr := collateralToken, value := "0",
           data := TxCallData.approve ctf amount, operation := operation },
         { toAddr := ctf, value := "0",
           data := TxCallData.splitPosition collateralToken
             (parentCollectionId.getD zeroBytes32) conditionId partition amount,
           operation := operation }]

/-- Modelled from the spec: compile a whole action batch, all or
nothing. -/
def buildOgTransactions (actions : List TxAction) (config : TxConfig) :
    Except String (List TxLibTx) :=
  match actions with
  | [] => Except.error ("actions must be a non-empty array")
  | a :: rest =>
    match buildOgTransaction config a with
    | Except.error e => Except.error e
    | Except.ok txs =>
      match rest with
      | [] => Except.ok txs
      | _ =>
        match buildOgTransactions rest config with
        | Except.error e => Except.error e
        | Except.ok more => Except.ok (txs ++ more)

end TxLib

/-- C6: compiling a single routedSwap (uniswap_v3_exact_input_single)
intent always returns exactly 2 calls, the approve at index 0 targeting
the input token and granting the router exactly the input amount, and
the exact-input-single swap at index 1 targeting the router. -/
theorem compile_routed_swap_two_calls (config : TxLib.TxConfig)
    (router tokenIn tokenOut : String) (fee : Nat) (recipient : String)
    (amountInWei amountOutMinWei : Nat) (sqrtPriceLimitX96 : Option Nat)
    (operation : Nat) :
    TxLib.buildOgTransactions
      [TxLib.TxAction.uniswapV3ExactInputSingle router tokenIn tokenOut fee
        recipient amountInWei amountOutMinWei sqrtPriceLimitX96 operation] config =
      Except.ok
        [{ toAddr := tokenIn, value := "0",
           data := TxLib.TxCallData.approve router amountInWei,
           operation := operation },
         { toAddr := router, value := "0",
           data := TxLib.TxCallData.exactInputSingle tokenIn tokenOut fee recipient
             amountInWei amountOutMinWei (sqrtPriceLimitX96.getD 0),
           operation := operation }] := by
  rfl

/-- C5: compiling a single collateralSplit (ctf_split) intent with
amount 250000 returns exactly 3 calls in order: approve(split contract,
0) on the collateral token, approve(split contract, 250000) on the
collateral token, then the splitPosition call on the split contract
with the matching partition and amount. -/
theorem compile_collateral_split_three_calls (collateralToken conditionId : String)
    (partition : List Nat) (ctf : String) (operation : Nat) :
    TxLib.buildOgTransactions
      [TxLib.TxAction.ctfSplit none collateralToken conditionId none partition
        250000 operation]
      { polymarketConditionalTokens := some ctf } =
      Except.ok
        [{ toAddr := collateralToken, value := "0",
           data := TxLib.TxCallData.approve ctf 0, operation := operation },
         { toAddr := collateralToken, value := "0",
           data := TxLib.TxCallData.approve ctf 250000, operation := operation },
         { toAddr := ctf, value := "0",
           data := TxLib.TxCallData.splitPosition collateralToken TxLib.zeroBytes32
             conditionId partition 250000,
           operation := operation }] := by
  rfl

namespace Timelock

/-- JS \d character class. -/
def isDigitChar (c : Char) : Bool := c.isDigit

/-- JS \w character class. -/
def isWordChar (c : Char) : Bool := c.isAlphanum || c = '_'

/-- Whitespace as used by the rule patterns. -/
def isSpaceChar (c : Char) : Bool := c = ' ' || c = '\t' || c = '\n' || c = '\r'

/-- Case-insensitive literal match: returns the input remainder after
the pattern. -/
def matchCI : List Char → List Char → Option (List Char)
  | [], cs => some cs
  | _ :: _, [] => none
  | p :: ps, c :: cs => if p.toLower = c.toLower then matchCI ps cs else none

/-- The month alternation of MONTHS_REGEX, in source order, with the
month number. -/
def monthTable : List (String × Nat) :=
  [("January", 1), ("February", 2), ("March", 3), ("April", 4), ("May", 5),
   ("June", 6), ("July", 7), ("August", 8), ("September", 9), ("October", 10),
   ("November", 11), ("December", 12)]

/-- Match one month name case-insensitively. -/
def matchMonth (cs : List Char) : Option (Nat × List Char) :=
  go monthTable
where
  go : List (String × Nat) → Option (Nat × List Char)
    | [] => none
    | (name, m) :: rest =>
      match matchCI name.toList cs with
      | some cs2 => some (m, cs2)
      | none => go rest

/-- Match at least one whitespace character, consuming the run. -/
def takeSpaces1 : List Char → Option (List Char)
  | [] => none
  | c :: cs => if isSpaceChar c then some (cs.dropWhile isSpaceChar) else none

/-- Numeric value of a digit run. -/
def digitsToNat (cs : List Char) : Nat :=
  cs.foldl (fun acc c => acc * 10 + (c.toNat - 48)) 0

/-- Match `\d{1,2}` greedily followed by a literal comma, with the
backtracking the regex performs, returning the day and the remainder
after the comma. -/
def matchDayComma : List Char → Option (Nat × List Char)
  | d1 :: rest1 =>
    if isDigitChar d1 then
      match rest1 with
      | d2 :: rest2 =>
        if isDigitChar d2 then
          match rest2 with
          | ',' :: rest3 => some (digitsToNat [d1, d2], rest3)
          | _ =>
            match rest1 with
            | ',' :: rest2' => some (digitsToNat [d1], rest2')
            | _ => none
        else
          match rest1 with
          | ',' :: rest2' => some (digitsToNat [d1], rest2')
          | _ => none
      | [] => none
    else none
  | [] => none

/-- Match exactly `\d{4}`. -/
def matchYear4 : List Char → Option (Nat × List Char)
  | a :: b :: c :: d :: rest =>
    if isDigitChar a && isDigitChar b && isDigitChar c && isDigitChar d then
      some (digitsToNat [a, b, c, d], rest)
    else none
  | _ => none

/-- Match `\d{1,2}` greedily (no separator requirement). -/
def matchDigits12 : List Char → Option (Nat × List Char)
  | d1 :: rest1 =>
    if isDigitChar d1 then
      match rest1 with
      | d2 :: rest2 =>
        if isDigitChar d2 then some (digitsToNat [d1, d2], rest2)
        else some (digitsToNat [d1], rest1)
      | [] => some (digitsToNat [d1], [])
    else none
  | [] => none

/-- Leap years up to and including `y`. -/
def leapCount (y : Nat) : Nat := y / 4 - y / 100 + y / 400

/-- Gregorian leap-year test. -/
def isLeapYear (y : Nat) : Bool := (y % 4 = 0 && y % 100 ≠ 0) || y % 400 = 0

/-- Days before the first of month `m` (1-based) in a year. -/
def daysBeforeMonth (m : Nat) (leap : Bool) : Nat :=
  let base := [0, 31, 59, 90, 120, 151, 181, 212, 243, 273, 304, 334]
  (base.getD (m - 1) 0) + (if leap && m > 2 then 1 else 0)

/-- Days from the Unix epoch to the civil date (y, m, d) UTC. -/
def daysFromEpoch (y m d : Nat) : Nat :=
  365 * (y - 1970) + (leapCount (y - 1) - leapCount 1969) +
    daysBeforeMonth m (isLeapYear y) + (d - 1)

/-- Milliseconds of the civil date (y, m, d) at midnight UTC. -/
def epochMsUTC (y m d : Nat) : Int :=
  (daysFromEpoch y m d : Int) * 86400000

/-- Modelled JS Date.parse on the date shapes this extractor produces:
`Month D, YYYY`, optionally followed by `HH:MM` and a `UTC`/`GMT`
marker.  A date or time without a timezone marker is interpreted in the
environment local timezone, `tzOffsetMin` minutes east of UTC; other
shapes give `none` (NaN). -/
def jsDateParse (tzOffsetMin : Int) (s : String) : Option Int :=
  let cs := s.toList
  match matchMonth cs with
  | none => none
  | some (m, r1) =>
    match takeSpaces1 r1 with
    | none => none
    | some r2 =>
      match matchDigits12 r2 with
      | none => none
      | some (d, r3) =>
        let r4 := match r3 with
          | ',' :: rest => rest
          | _ => r3
        match takeSpaces1 r4 with
        | none => none
        | some r5 =>
          match matchYear4 r5 with
          | none => none
          | some (y, r6) =>
            let base := epochMsUTC y m d
            let rest := r6.dropWhile isSpaceChar
            match rest with
            | [] => some (base - tzOffsetMin * 60000)
            | _ =>
              match matchDigits12 rest with
              | none => none
              | some (hh, t1) =>
                match t1 with
                | ':' :: t2 =>
                  match t2 with
                  | m1 :: m2 :: t3 =>
                    if isDigitChar m1 && isDigitChar m2 then
                      let timeMs : Int := (hh * 3600000 + digitsToNat [m1, m2] * 60000 : Nat)
                      let t4 := t3.dropWhile isSpaceChar
                      match matchCI "UTC".toList t4 with
                      | some [] => some (base + timeMs)
                      | _ =>
                        match matchCI "GMT".toList t4 with
                        | some [] => some (base + timeMs)
                        | _ =>
                          if t4 = [] then some (base + timeMs - tzOffsetMin * 60000)
                          else none
                    else none
                  | _ => none
                | _ => none

end Timelock

namespace Timelock

/-- One keyword alternative of the absolute pattern tried at the head of
the input: keyword, `\s+`, month, `\s+`, `\d{1,2},`, `\s+`, `\d{4}`,
then the greedy `[^.\n]*` tail; returns the matched phrase and the
remainder. -/
def tryMatchAbsAt (cs : List Char) (kw : List Char) : Option (List Char × List Char) :=
  (matchCI kw cs).bind fun r1 =>
  (takeSpaces1 r1).bind fun r2 =>
  (matchMonth r2).bind fun p3 =>
  (takeSpaces1 p3.2).bind fun r4 =>
  (matchDayComma r4).bind fun p5 =>
  (takeSpaces1 p5.2).bind fun r6 =>
  (matchYear4 r6).bind fun p7 =>
    let rest := p7.2.dropWhile fun c => !(c = '.' || c = '\n')
    some (cs.take (cs.length - rest.length), rest)

/-- The `(after|on or after)` alternation of the absolute pattern, in
source order. -/
def tryMatchAbs (cs : List Char) : Option (List Char × List Char) :=
  match tryMatchAbsAt cs "after".toList with
  | some r => some r
  | none => tryMatchAbsAt cs "on or after".toList

/-- Global scan of the absolute pattern: on a match, scanning resumes
after the match; otherwise it advances one character. -/
def scanAbsAux : Nat → List Char → List (List Char)
  | 0, _ => []
  | _, [] => []
  | Nat.succ fuel, c :: cs =>
    match tryMatchAbs (c :: cs) with
    | some (phrase, rest) => phrase :: scanAbsAux fuel rest
    | none => scanAbsAux fuel cs

/-- The anchored `replace(/^(after|on or after)\s+/i, "")` of the
source. -/
def stripKeyword (phrase : List Char) : List Char :=
  match (matchCI "after".toList phrase).bind takeSpaces1 with
  | some r => r
  | none =>
    match (matchCI "on or after".toList phrase).bind takeSpaces1 with
    | some r => r
    | none => phrase

/-- JS `String.prototype.trim`. -/
def jsTrim (cs : List Char) : List Char :=
  ((cs.dropWhile isSpaceChar).reverse.dropWhile isSpaceChar).reverse

/-- The trailing `[\s.]+` strip of the source. -/
def trimTrailingDots (cs : List Char) : List Char :=
  (cs.reverse.dropWhile fun c => isSpaceChar c || c = '.').reverse

/-- Case-insensitive word-boundary containment of one token. -/
def wordBoundaryMatch (token : List Char) (prev : Option Char) (cs : List Char) : Bool :=
  (match prev with
   | none => true
   | some p => !isWordChar p) &&
  (match matchCI token cs with
   | some [] => true
   | some (r :: _) => !isWordChar r
   | none => false)

/-- Scan for a word-boundary occurrence of a token. -/
def containsWordCI (token : String) (cs : List Char) : Bool :=
  go none cs
where
  go : Option Char → List Char → Bool
    | _, [] => false
    | prev, c :: rest => wordBoundaryMatch token.toList prev (c :: rest) || go (some c) rest

/-- The timezone test `/\b(PST|PDT|UTC|GMT|Z)\b/i` of the source. -/
def hasTimezoneIn (cs : List Char) : Bool :=
  containsWordCI "PST" cs || containsWordCI "PDT" cs || containsWordCI "UTC" cs ||
    containsWordCI "GMT" cs || containsWordCI "Z" cs

/-- One position of the time test `\b\d{1,2}:\d{2}`. -/
def timeAt (prev : Option Char) (cs : List Char) : Bool :=
  (match prev with
   | none => true
   | some p => !isWordChar p) &&
  (match matchDigits12 cs with
   | some (_, ':' :: t2) =>
     match t2 with
     | a :: b :: _ => isDigitChar a && isDigitChar b
     | _ => false
   | _ => false)

/-- The time test `/\b\d{1,2}:\d{2}(\s*[AP]M)?\b/i` of the source (the
optional meridiem group does not affect containment here). -/
def hasTimeIn (cs : List Char) : Bool :=
  go none cs
where
  go : Option Char → List Char → Bool
    | _, [] => false
    | prev, c :: rest => timeAt prev (c :: rest) || go (some c) rest

/-- The date-only pattern `Month\s+\d{1,2},\s+\d{4}` at the head of the
input, returning the matched span. -/
def tryMatchDateOnly (cs : List Char) : Option (List Char) :=
  (matchMonth cs).bind fun p1 =>
  (takeSpaces1 p1.2).bind fun r2 =>
  (matchDayComma r2).bind fun p3 =>
  (takeSpaces1 p3.2).bind fun r4 =>
  (matchYear4 r4).bind fun p5 =>
    some (cs.take (cs.length - p5.2.length))

/-- `cleanedDateOnly` of the source: the first date-only match. -/
def cleanedDateOnly : List Char → Option (List Char)
  | [] => none
  | c :: rest =>
    match tryMatchDateOnly (c :: rest) with
    | some m => some m
    | none => cleanedDateOnly rest

/-- A timezone token with a trailing word boundary, for the
`\s+(PST|PDT|UTC|GMT)\b` removal. -/
def tzTokenMatch (cs : List Char) : Option (List Char) :=
  go ["PST", "PDT", "UTC", "GMT"]
where
  go : List String → Option (List Char)
    | [] => none
    | t :: rest =>
      match matchCI t.toList cs with
      | some [] => some []
      | some (r :: rs) => if !isWordChar r then some (r :: rs) else go rest
      | none => go rest

/-- The first `\s+(PST|PDT|UTC|GMT)\b` occurrence removed, when there is
one. -/
def removeFirstTzAux : List Char → Option (List Char)
  | [] => none
  | c :: rest =>
    if isSpaceChar c then
      match tzTokenMatch (rest.dropWhile isSpaceChar) with
      | some r => some r
      | none =>
        match removeFirstTzAux rest with
        | some r => some (c :: r)
        | none => none
    else
      match removeFirstTzAux rest with
      | some r => some (c :: r)
      | none => none

/-- `replace(/\s+(PST|PDT|UTC|GMT)\b/i, "")`, one occurrence. -/
def removeFirstTz (cs : List Char) : List Char :=
  match removeFirstTzAux cs with
  | some r => r
  | none => cs

/-- An absolute timelock extracted from the rules text. -/
structure AbsLock where
  timestampMs : Int
  source : String
deriving Repr, DecidableEq

/-- The per-phrase resolution of `extractAbsoluteTimelocks`: strip the
keyword, trim, probe `Date.parse` with the timezone-removal and
date-only fallbacks, and — when no timezone is stated and the parse is
finite — reparse at midnight UTC (or with a UTC suffix when a time is
present). -/
def processAbsPhrase (tz : Int) (phrase : List Char) : Option AbsLock :=
  let raw := jsTrim (stripKeyword phrase)
  let trimmed := trimTrailingDots raw
  let hasTz := hasTimezoneIn trimmed
  let trimmedStr := String.mk trimmed
  let p1 := jsDateParse tz trimmedStr
  let p2 := match p1 with
    | some v => some v
    | none => jsDateParse tz (String.mk (removeFirstTz trimmed))
  let p3 := match p2 with
    | some v => some v
    | none =>
      match cleanedDateOnly trimmed with
      | some dOnly => jsDateParse tz (String.mk dOnly)
      | none => none
  let p4 :=
    if hasTz = false then
      match p3 with
      | some v =>
        let dOnly := if hasTimeIn trimmed then none else cleanedDateOnly trimmed
        let withUtc := match dOnly with
          | some dcs => String.mk dcs ++ " 00:00 UTC"
          | none => trimmedStr ++ " UTC"
        match jsDateParse tz withUtc with
        | some u => some u
        | none => some v
      | none => none
    else p3
  match p4 with
  | some ts => some { timestampMs := ts, source := String.mk phrase }
  | none => none

/-- Embedding of `extractAbsoluteTimelocks`, parameterized by the local
timezone offset that JS `Date.parse` would use for unzoned dates. -/
def extractAbsoluteTimelocks (tz : Int) (rulesText : String) : List AbsLock :=
  if rulesText = "" then []
  else (scanAbsAux rulesText.toList.length rulesText.toList).filterMap (processAbsPhrase tz)

/-- A relative timelock extracted from the rules text. -/
structure RelLock where
  offsetMs : Nat
  source : String
deriving Repr, DecidableEq

/-- The continuation of the relative pattern after its first group:
`\s*(minute|minutes|hour|hours|day|days)\s+after\s+deposit`, unit
alternation in source order. -/
def relCont (cs : List Char) : Option (String × List Char) :=
  go ["minute", "minutes", "hour", "hours", "day", "days"] (cs.dropWhile isSpaceChar)
where
  go : List String → List Char → Option (String × List Char)
    | [], _ => none
    | u :: rest, r =>
      match (matchCI u.toList r).bind (fun r2 =>
        (takeSpaces1 r2).bind fun r3 =>
        (matchCI "after".toList r3).bind fun r4 =>
        (takeSpaces1 r4).bind fun r5 =>
        matchCI "deposit".toList r5) with
      | some r6 => some (u, r6)
      | none => go rest r

/-- Backtracking over the first group length, longest first, as the
regex engine does for `\d+`/`\w+`. -/
def tryGroup1 (cs : List Char) : Nat → Option (List Char × String × List Char)
  | 0 => none
  | Nat.succ n =>
    match relCont (cs.drop (Nat.succ n)) with
    | some (u, r) => some (cs.take (Nat.succ n), u, r)
    | none => tryGroup1 cs n

/-- The whole relative pattern `(\d+|\w+)\s*(unit)\s+after\s+deposit` at
the head of the input: the `\d+` branch with its backtracks first, then
the `\w+` branch; returns the amount group, the unit, the whole match
and the remainder. -/
def tryMatchRel (cs : List Char) : Option (List Char × String × List Char × List Char) :=
  let digitLen := (cs.takeWhile isDigitChar).length
  let first :=
    match tryGroup1 cs digitLen with
    | some r => some r
    | none => tryGroup1 cs (cs.takeWhile isWordChar).length
  match first with
  | some (g1, u, rest) => some (g1, u, cs.take (cs.length - rest.length), rest)
  | none => none

/-- Global scan of the relative pattern. -/
def scanRelAux : Nat → List Char → List (List Char × String × List Char)
  | 0, _ => []
  | _, [] => []
  | Nat.succ fuel, c :: cs =>
    match tryMatchRel (c :: cs) with
    | some (g1, u, whole, rest) => (g1, u, whole) :: scanRelAux fuel rest
    | none => scanRelAux fuel cs

/-- NUMBER_WORDS of the source. -/
def numberWords : List (String × Nat) :=
  [("one", 1), ("two", 2), ("three", 3), ("four", 4), ("five", 5), ("six", 6),
   ("seven", 7), ("eight", 8), ("nine", 9), ("ten", 10), ("eleven", 11),
   ("twelve", 12)]

/-- `parseNumber` of the source: a digit run parses as a number, else
the lowercased word is looked up in NUMBER_WORDS. -/
def parseNumber (cs : List Char) : Option Nat :=
  let t := (jsTrim cs).map Char.toLower
  if t ≠ [] ∧ t.all isDigitChar then some (digitsToNat t)
  else ((numberWords.find? fun p => p.1 = String.mk t).map fun p => p.2)

/-- `unitToMs` of the source. -/
def unitToMs (u : String) : Option Nat :=
  if u = "minute" ∨ u = "minutes" then some 60000
  else if u = "hour" ∨ u = "hours" then some 3600000
  else if u = "day" ∨ u = "days" then some 86400000
  else none

/-- Embedding of `extractRelativeTimelocks`: falsy amounts (no parse, or
zero) skip the match. -/
def extractRelativeTimelocks (rulesText : String) : List RelLock :=
  if rulesText = "" then []
  else
    (scanRelAux rulesText.toList.length rulesText.toList).filterMap fun g =>
      match parseNumber g.1, unitToMs g.2.1 with
      | some amount, some ms =>
        if amount = 0 then none
        else some { offsetMs := amount * ms, source := String.mk g.2.2 }
      | _, _ => none

/-- A deposit as consumed by the trigger extractor; a zero timestamp is
falsy and skipped like an absent one. -/
structure TimeDeposit where
  id : Option String
  transactionHash : Option String
  blockNumber : Option Int
  timestampMs : Int
deriving Repr, DecidableEq

/-- A timelock trigger. -/
structure Trigger where
  id : String
  kind : String
  timestampMs : Int
  source : String
  anchor : Option String
  deposit : Option TimeDeposit
deriving Repr, DecidableEq

/-- The input record of `extractTimelockTriggers`. -/
structure TriggerInput where
  rulesText : String
  deposits : List TimeDeposit
deriving Repr, DecidableEq

/-- The `deposit.id ?? deposit.transactionHash ?? deposit.blockNumber`
template fragment of the relative trigger id. -/
def depositIdString (d : TimeDeposit) : String :=
  match d.id with
  | some s => s
  | none =>
    match d.transactionHash with
    | some s => s
    | none =>
      match d.blockNumber with
      | some n => toString n
      | none => "undefined"

/-- Embedding of `extractTimelockTriggers`: absolute triggers from the
rules text, then — when relative rules exist — one relative trigger per
deposit and rule, due at the deposit timestamp plus the rule offset. -/
def extractTimelockTriggers (tz : Int) (input : TriggerInput) : List Trigger :=
  let absolute := extractAbsoluteTimelocks tz input.rulesText
  let absTriggers := absolute.map fun lock =>
    ({ id := "absolute:" ++ toString lock.timestampMs, kind := "absolute",
       timestampMs := lock.timestampMs, source := lock.source,
       anchor := none, deposit := none } : Trigger)
  let relative := extractRelativeTimelocks input.rulesText
  let relTriggers :=
    if relative.length > 0 then
      input.deposits.flatMap fun d =>
        if d.timestampMs = 0 then []
        else relative.map fun rule =>
          ({ id := "relative:" ++ depositIdString d ++ ":" ++ toString rule.offsetMs,
             kind := "relative", timestampMs := d.timestampMs + rule.offsetMs,
             source := rule.source, anchor := some "deposit",
             deposit := some d } : Trigger)
    else []
  absTriggers ++ relTriggers

end Timelock

/-- C7: on rules text stating "withdrawable after January 15, 2026"
with no timezone, the extractor yields exactly one absolute trigger
whose timestamp is that calendar date at midnight UTC (1768435200000),
for every local timezone offset; and on rules text "five minutes after
deposit" with a deposit at time T it yields exactly one relative
trigger due at T + 300000 milliseconds. -/
theorem timelock_extraction (tz : Int) (T : Int) (hT : T ≠ 0) :
    Timelock.extractTimelockTriggers tz
      { rulesText := "withdrawable after January 15, 2026", deposits := [] } =
      [{ id := "absolute:1768435200000", kind := "absolute",
         timestampMs := 1768435200000, source := "after January 15, 2026",
         anchor := none, deposit := none }] ∧
    Timelock.extractTimelockTriggers tz
      { rulesText := "five minutes after deposit",
        deposits := [{ id := some "dep1", transactionHash := none,
                       blockNumber := none, timestampMs := T }] } =
      [{ id := "relative:dep1:300000", kind := "relative",
         timestampMs := T + 300000, source := "five minutes after deposit",
         anchor := some "deposit",
         deposit := some { id := some "dep1", transactionHash := none,
                           blockNumber := none, timestampMs := T } }] := by
  constructor
  · rfl
  · have hstep : Timelock.extractTimelockTriggers tz
        { rulesText := "five minutes after deposit",
          deposits := [{ id := some "dep1", transactionHash := none,
                         blockNumber := none, timestampMs := T }] } =
        (if T = 0 then []
         else [{ id := "relative:dep1:300000", kind := "relative",
                 timestampMs := T + 300000,
                 source := "five minutes after deposit",
                 anchor := some "deposit",
                 deposit := some { id := some "dep1", transactionHash := none,
                                   blockNumber := none, timestampMs := T } }]) ++ [] := rfl
    rw [hstep, if_neg hT]
    rfl

/-- Witness for C7 at timezone offset 0 and deposit time 1000000. -/
theorem timelock_extraction_witness :
    Timelock.extractTimelockTriggers 0
      { rulesText := "five minutes after deposit",
        deposits := [{ id := some "dep1", transactionHash := none,
                       blockNumber := none, timestampMs := 1000000 }] } =
      [{ id := "relative:dep1:300000", kind := "relative", timestampMs := 1300000,
         source := "five minutes after deposit", anchor := some "deposit",
         deposit := some { id := some "dep1", transactionHash := none,
                           blockNumber := none, timestampMs := 1000000 } }] := by
  have h := (timelock_extraction 0 1000000 (by decide)).2
  exact h.trans (by decide)
